import Mathlib

/-!
# Verification of the `mcp-server-251215` request-dispatch façade

Shallow embedding of `src/index.ts`: the response-envelope builder, the
weather-code table, and the six tool handlers (greet, calculator, get-time,
geocode, get-weather, generate-image) plus the server-info resource.

JavaScript numbers are modelled as `ℚ`; the JS number-to-string conversion
used by template interpolation is passed in as an explicit function argument
wherever a handler interpolates a number, so no claim depends on a particular
float-formatting choice.  External effects (the `Intl` date formatter, the
HTTP fetches, the Hugging Face inference call) are modelled as function
arguments supplying their observable results.
-/

namespace McpServer

/-- A content item of a response envelope (`type: 'text'` or `type: 'image'`),
mirroring the object literals built in `src/index.ts`. -/
inductive ContentItem where
  | text (text : String)
  | image (data : String) (mimeType : String) (audience : List String) (priority : ℚ)
  deriving DecidableEq, Repr

/-- The structured-content mirror: an object holding a content list. -/
structure StructuredContent where
  content : List ContentItem
  deriving DecidableEq, Repr

/-- The normalized response envelope: a primary content list and an optional
structured-content mirror (text envelopes carry one, image envelopes do not). -/
structure ResponseEnvelope where
  content : List ContentItem
  structuredContent : Option StructuredContent
  deriving DecidableEq, Repr

/-- `createTextResponse` from `src/index.ts` lines 21–26: duplicates the text
into the primary content list and the structured-content mirror. -/
def createTextResponse (text : String) : ResponseEnvelope :=
  { content := [ContentItem.text text]
  , structuredContent := some { content := [ContentItem.text text] } }

/-- JavaScript `a || b` on a possibly-absent string: `undefined` and the empty
string are falsy, so the fallback is used for both. -/
def jsOrString (v : Option String) (fallback : String) : String :=
  match v with
  | none => fallback
  | some s => if s.isEmpty then fallback else s

/-- The `WEATHER_CODES` table from `src/index.ts` lines 29–58, as an
association list from integer weather code to Korean description. -/
def WEATHER_CODES : List (Int × String) :=
  [ (0, "맑음")
  , (1, "대체로 맑음")
  , (2, "부분적으로 흐림")
  , (3, "흐림")
  , (45, "안개")
  , (48, "서리 안개")
  , (51, "약한 이슬비")
  , (53, "중간 이슬비")
  , (55, "강한 이슬비")
  , (56, "약한 동결 이슬비")
  , (57, "강한 동결 이슬비")
  , (61, "약한 비")
  , (63, "중간 비")
  , (65, "강한 비")
  , (66, "약한 동결 비")
  , (67, "강한 동결 비")
  , (71, "약한 눈")
  , (73, "중간 눈")
  , (75, "강한 눈")
  , (77, "눈알")
  , (80, "약한 소나기")
  , (81, "중간 소나기")
  , (82, "강한 소나기")
  , (85, "약한 눈 소나기")
  , (86, "강한 눈 소나기")
  , (95, "천둥번개")
  , (96, "천둥번개와 약한 우박")
  , (99, "천둥번개와 강한 우박") ]

/-- Table lookup, `WEATHER_CODES[code]` (returns `undefined` when absent). -/
def weatherCodesLookup (code : Int) : Option String :=
  (WEATHER_CODES.find? (fun p => p.1 = code)).map Prod.snd

/-- `getWeatherDescription` from `src/index.ts` lines 60–61:
`WEATHER_CODES[code] || "코드 {code}"` (JS `||`, so an absent entry falls back). -/
def getWeatherDescription (code : Int) : String :=
  jsOrString (weatherCodesLookup code) ("코드 " ++ toString code)

/-- The hand-maintained tool catalog of the `server-info` resource supplier,
`src/index.ts` lines 434–441: `(name, description)` pairs. -/
def serverInfoToolCatalog : List (String × String) :=
  [ ("greet", "인사말 반환")
  , ("calculator", "사칙연산")
  , ("get-time", "타임존별 현재 시간")
  , ("geocode", "주소를 좌표로 변환")
  , ("get-weather", "날씨 정보")
  , ("generate-image", "AI 이미지 생성") ]

/-- `totalTools` field of the `server-info` JSON payload, line 442. -/
def serverInfoTotalTools : Nat := 6

/-- The names passed to the six `server.registerTool` calls in `createServer`,
in registration order (`src/index.ts` lines 75–346). -/
def registeredToolNames : List String :=
  [ "greet", "calculator", "get-time", "geocode", "get-weather", "generate-image" ]

/-- The two values of the `greet` tool's `language` enum (`z.enum(['ko','en'])`). -/
inductive Language where
  | ko
  | en
  deriving DecidableEq, Repr

/-- The greeting string built by the `greet` handler (`src/index.ts` lines
88–94): ternary on `language === 'ko'`. -/
def greetText (name : String) (language : Language) : String :=
  if language = Language.ko then
    "안녕하세요, " ++ name ++ "님!"
  else
    "Hey there, " ++ name ++ "! 👋 Nice to meet you!"

/-- The `greet` handler: wraps the greeting via `createTextResponse`. -/
def greetHandler (name : String) (language : Language) : ResponseEnvelope :=
  createTextResponse (greetText name language)

/-- The four values of the calculator's `operator` enum (`'+','-','*','/'`). -/
inductive CalcOp where
  | add
  | sub
  | mul
  | div
  deriving DecidableEq, Repr

/-- The `resultText` computed by the calculator handler's `switch`
(`src/index.ts` lines 111–136).  JS numbers are modelled as `ℚ` and the JS
number-to-string conversion used by template interpolation is the explicit
argument `numStr`. -/
def calculatorText (numStr : ℚ → String) (num1 num2 : ℚ) (operator : CalcOp) : String :=
  match operator with
  | CalcOp.add => numStr num1 ++ " + " ++ numStr num2 ++ " = " ++ numStr (num1 + num2)
  | CalcOp.sub => numStr num1 ++ " - " ++ numStr num2 ++ " = " ++ numStr (num1 - num2)
  | CalcOp.mul => numStr num1 ++ " * " ++ numStr num2 ++ " = " ++ numStr (num1 * num2)
  | CalcOp.div =>
      if num2 = 0 then
        "오류: 0으로 나눌 수 없습니다."
      else
        numStr num1 ++ " / " ++ numStr num2 ++ " = " ++ numStr (num1 / num2)

/-- The `calculator` handler: wraps `resultText` via `createTextResponse`
(`src/index.ts` line 138). -/
def calculatorHandler (numStr : ℚ → String) (num1 num2 : ℚ) (operator : CalcOp) :
    ResponseEnvelope :=
  createTextResponse (calculatorText numStr num1 num2 operator)

/-- The `get-time` handler (`src/index.ts` lines 153–172).  The
`Intl.DateTimeFormat` construction-and-format step is modelled by the argument
`format`: `some t` is the formatted current time for a valid timezone, `none`
models the `RangeError` thrown for an invalid timezone name, which the
handler's `try/catch` converts into the error text envelope. -/
def getTimeHandler (format : String → Option String) (timezone : String) :
    ResponseEnvelope :=
  match format timezone with
  | some t => createTextResponse (timezone ++ "의 현재 시간: " ++ t)
  | none => createTextResponse ("오류: 유효하지 않은 타임존입니다. (" ++ timezone ++ ")")

/-- One element of the Nominatim geocoding response array (`src/index.ts`
lines 207–210): `lat` and `lon` are JSON strings fed to `parseFloat`;
`display_name` is `none` when the field is absent. -/
structure GeocodeResult where
  lat : String
  lon : String
  display_name : Option String
  deriving DecidableEq, Repr

/-- The success path of the `geocode` handler after the response body is
parsed (`src/index.ts` lines 203–214).  `parseFloatStr` models the composite
`` `${parseFloat(s)}` `` (parse then re-stringify) applied to `lat`/`lon`. -/
def geocodeHandler (parseFloatStr : String → String) (results : List GeocodeResult)
    (address : String) : ResponseEnvelope :=
  match results with
  | [] => createTextResponse ("주소를 찾을 수 없습니다: " ++ address)
  | r :: _ =>
      let latS := parseFloatStr r.lat
      let lonS := parseFloatStr r.lon
      let displayName := jsOrString r.display_name address
      createTextResponse
        ("주소: " ++ displayName ++ "\n위도: " ++ latS ++ "\n경도: " ++ lonS ++
          "\n좌표: (" ++ latS ++ ", " ++ lonS ++ ")")

/-- The `data.current_weather` object of the Open-Meteo response
(`src/index.ts` lines 268, 272–275). -/
structure CurrentWeather where
  temperature : ℚ
  weathercode : Int
  windspeed : ℚ
  deriving DecidableEq, Repr

/-- The `data.daily` object of the Open-Meteo response (`src/index.ts`
lines 269, 278–288): parallel per-day series. -/
structure DailySeries where
  time : List String
  temperature_2m_max : List ℚ
  temperature_2m_min : List ℚ
  precipitation_sum : List ℚ
  weather_code : List Int
  deriving DecidableEq, Repr

/-- One iteration of the forecast loop (`src/index.ts` lines 279–288): the
block of text appended for day `i`.  `dateFmt` models
`new Date(s).toLocaleDateString('ko-KR', ...)`; `numStr` models JS template
interpolation of numbers.  Indexing is total via `getD` (the JS code would
interpolate `undefined` past the end of a series; the loop bound keeps `i`
inside `daily.time`). -/
def weatherDayBlock (numStr : ℚ → String) (dateFmt : String → String)
    (daily : DailySeries) (i : Nat) : String :=
  "\n" ++ dateFmt (daily.time.getD i "") ++ ":\n" ++
    "  최고: " ++ numStr (daily.temperature_2m_max.getD i 0) ++ "°C / 최저: " ++
    numStr (daily.temperature_2m_min.getD i 0) ++ "°C\n" ++
    "  강수량: " ++ numStr (daily.precipitation_sum.getD i 0) ++ "mm\n" ++
    "  날씨: " ++ getWeatherDescription (daily.weather_code.getD i 0) ++ "\n"

/-- The forecast loop (`src/index.ts` line 278):
`for (let i = 0; i < Math.min(forecastDays, daily.time.length); i++)`, one
block per iteration. -/
def weatherForecastBlocks (numStr : ℚ → String) (dateFmt : String → String)
    (forecastDays : Nat) (daily : DailySeries) : List String :=
  (List.range (min forecastDays daily.time.length)).map
    (weatherDayBlock numStr dateFmt daily)

/-- The full `resultText` of the `get-weather` success path (`src/index.ts`
lines 271–289). -/
def getWeatherText (numStr : ℚ → String) (dateFmt : String → String)
    (latitude longitude : ℚ) (forecastDays : Nat) (current : CurrentWeather)
    (daily : DailySeries) : String :=
  "📍 위치: 위도 " ++ numStr latitude ++ ", 경도 " ++ numStr longitude ++ "\n\n" ++
    "🌡️ 현재 날씨:\n" ++
    "  온도: " ++ numStr current.temperature ++ "°C\n" ++
    "  날씨: " ++ getWeatherDescription current.weathercode ++ "\n" ++
    "  풍속: " ++ numStr current.windspeed ++ " km/h\n\n" ++
    "📅 " ++ toString forecastDays ++ "일 예보:\n" ++
    String.join (weatherForecastBlocks numStr dateFmt forecastDays daily)

/-- The `get-weather` success path as an envelope (`src/index.ts` line 291). -/
def getWeatherHandler (numStr : ℚ → String) (dateFmt : String → String)
    (latitude longitude : ℚ) (forecastDays : Nat) (current : CurrentWeather)
    (daily : DailySeries) : ResponseEnvelope :=
  createTextResponse
    (getWeatherText numStr dateFmt latitude longitude forecastDays current daily)

/-- JS truthiness of a possibly-absent string (`undefined` and `''` falsy). -/
def jsTruthyStr (o : Option String) : Bool :=
  match o with
  | some s => !s.isEmpty
  | none => false

/-- JS `a || b` on possibly-absent strings, keeping absence explicit. -/
def jsOrOption (a b : Option String) : Option String :=
  if jsTruthyStr a then a else b

/-- Credential resolution (`src/index.ts` lines 71–72):
`const hfToken = config?.hfToken || process.env.HF_TOKEN` followed by
`hfToken ? new InferenceClient(hfToken) : null`.  The client is modelled by
the token it was constructed from; `none` is the `null` client. -/
def hfClient (configHfToken envHfToken : Option String) : Option String :=
  let hfToken := jsOrOption configHfToken envHfToken
  if jsTruthyStr hfToken then hfToken else none

/-- The credential-missing message returned by `generate-image`
(`src/index.ts` line 313). -/
def missingTokenMessage : String :=
  "오류: Hugging Face API 토큰이 설정되지 않았습니다. configSchema의 hfToken 또는 HF_TOKEN 환경변수를 설정해주세요."

/-- The `generate-image` handler (`src/index.ts` lines 311–345).
`textToImage` models the single outbound inference call (token, prompt ↦
base64 image data or a failure message); the returned `Nat` counts how many
outbound inference calls the invocation performed. -/
def generateImageHandler (client : Option String)
    (textToImage : String → String → Except String String) (prompt : String) :
    ResponseEnvelope × Nat :=
  match client with
  | none => (createTextResponse missingTokenMessage, 0)
  | some tok =>
      match textToImage tok prompt with
      | Except.ok base64Data =>
          ({ content := [ContentItem.image base64Data "image/png" ["user"] (9 / 10)]
           , structuredContent := none }, 1)
      | Except.error e =>
          (createTextResponse ("오류: 이미지 생성 중 문제가 발생했습니다. " ++ e), 1)

/-- A raw JSON argument value, as received before schema validation. -/
inductive JsonValue where
  | str (s : String)
  | num (q : ℚ)
  | bool (b : Bool)
  | null
  deriving DecidableEq, Repr

/-- Modelled from the spec: the schema-validation step for `greet`'s
`language` field, `z.enum(['ko','en']).optional().default('en')`
(`src/index.ts` lines 81–85).  The zod library is an external collaborator;
per the spec's validation contract (§4.1) the default covers only absence,
while a present value must match the enum exactly or the invocation is
rejected. -/
def validateGreetLanguage : Option JsonValue → Except String Language
  | none => Except.ok Language.en
  | some (JsonValue.str s) =>
      if s = "ko" then Except.ok Language.ko
      else if s = "en" then Except.ok Language.en
      else Except.error "invalid_enum_value: language"
  | some _ => Except.error "invalid_type: language expected string"

/-- Modelled from the spec: the schema-validation step for `get-weather`'s
`forecastDays` field, `z.number().int().min(1).max(16).optional().default(7)`
(`src/index.ts` lines 239–246).  The default covers only absence; a present
value must be an integral number within the inclusive range [1, 16]. -/
def validateForecastDays : Option JsonValue → Except String Int
  | none => Except.ok 7
  | some (JsonValue.num q) =>
      if q.den ≠ 1 then Except.error "invalid_type: forecastDays expected integer"
      else if q < 1 then Except.error "too_small: forecastDays"
      else if q > 16 then Except.error "too_big: forecastDays"
      else Except.ok q.num
  | some _ => Except.error "invalid_type: forecastDays expected number"

/-- Whether an `Except` result is a success. -/
def exceptOk {ε α : Type} : Except ε α → Bool
  | Except.ok _ => true
  | Except.error _ => false

end McpServer

namespace McpServer

/-- Claim C1: for every input string (empty, newlines, markup included) the
text envelope built by `createTextResponse` carries the same text in its
primary content list and in its structured-content mirror; each list holds
exactly one item and that item is a text item. -/
theorem createTextResponse_mirror (s : String) :
    (createTextResponse s).content = [ContentItem.text s] ∧
    (createTextResponse s).structuredContent =
      some { content := [ContentItem.text s] } ∧
    (createTextResponse s).content.length = 1 := by
  exact ⟨rfl, rfl, rfl⟩

/-- Claim C2: for every pair of numbers and every operator the calculator
handler returns a text envelope whose text is `a op b = r` with `r` the
native arithmetic result, except division by zero, whose text is exactly the
literal Korean zero-division message with no numeric result. -/
theorem calculator_matches_native_arithmetic (numStr : ℚ → String) (a b : ℚ) :
    calculatorHandler numStr a b CalcOp.add =
      createTextResponse (numStr a ++ " + " ++ numStr b ++ " = " ++ numStr (a + b)) ∧
    calculatorHandler numStr a b CalcOp.sub =
      createTextResponse (numStr a ++ " - " ++ numStr b ++ " = " ++ numStr (a - b)) ∧
    calculatorHandler numStr a b CalcOp.mul =
      createTextResponse (numStr a ++ " * " ++ numStr b ++ " = " ++ numStr (a * b)) ∧
    (b ≠ 0 → calculatorHandler numStr a b CalcOp.div =
      createTextResponse (numStr a ++ " / " ++ numStr b ++ " = " ++ numStr (a / b))) ∧
    (b = 0 → calculatorHandler numStr a b CalcOp.div =
      createTextResponse "오류: 0으로 나눌 수 없습니다.") := by
  refine ⟨rfl, rfl, rfl, ?_, ?_⟩ <;> intro h <;>
    simp [calculatorHandler, calculatorText, h]

/-- Witness for C2 at concrete inputs: `1 / 2` succeeds, `1 / 0` yields the
literal zero-division message. -/
theorem calculator_matches_native_arithmetic_witness :
    ((2 : ℚ) ≠ 0 ∧ calculatorHandler toString 1 2 CalcOp.div =
      createTextResponse
        (toString (1 : ℚ) ++ " / " ++ toString (2 : ℚ) ++ " = " ++ toString ((1 : ℚ) / 2))) ∧
    calculatorHandler toString 1 0 CalcOp.div =
      createTextResponse "오류: 0으로 나눌 수 없습니다." :=
  ⟨⟨by norm_num,
    (calculator_matches_native_arithmetic toString 1 2).2.2.2.1 (by norm_num)⟩,
   (calculator_matches_native_arithmetic toString 1 0).2.2.2.2 rfl⟩

/-- Claim C3: for every `forecastDays` in [1, 16] and every parsed daily
series of length `L`, the `get-weather` handler's forecast loop produces
exactly `min forecastDays L` per-day blocks. -/
theorem getWeather_forecast_block_count (numStr : ℚ → String)
    (dateFmt : String → String) (forecastDays : Nat) (daily : DailySeries)
    (_h1 : 1 ≤ forecastDays) (_h2 : forecastDays ≤ 16) :
    (weatherForecastBlocks numStr dateFmt forecastDays daily).length =
      min forecastDays daily.time.length := by
  simp [weatherForecastBlocks]

/-- Witness for C3: a 3-day series with `forecastDays = 7` yields
`min 7 3 = 3` blocks. -/
theorem getWeather_forecast_block_count_witness :
    1 ≤ 7 ∧ 7 ≤ 16 ∧
    (weatherForecastBlocks (fun _ => "n") (fun s => s) 7
        { time := ["2026-01-01", "2026-01-02", "2026-01-03"]
        , temperature_2m_max := [5, 6, 7]
        , temperature_2m_min := [1, 2, 3]
        , precipitation_sum := [0, 0, 1]
        , weather_code := [0, 61, 95] }).length =
      min 7 (["2026-01-01", "2026-01-02", "2026-01-03"] : List String).length :=
  ⟨by decide, by decide,
   getWeather_forecast_block_count (fun _ => "n") (fun s => s) 7
     { time := ["2026-01-01", "2026-01-02", "2026-01-03"]
     , temperature_2m_max := [5, 6, 7]
     , temperature_2m_min := [1, 2, 3]
     , precipitation_sum := [0, 0, 1]
     , weather_code := [0, 61, 95] } (by decide) (by decide)⟩

/-- Claim C4: for every integer weather code, `getWeatherDescription` returns
the table's description when the code is a key of `WEATHER_CODES` and exactly
the fallback label otherwise; being a total Lean function it throws on no
code. -/
theorem getWeatherDescription_table_or_fallback (code : Int) :
    (∀ d, weatherCodesLookup code = some d → getWeatherDescription code = d) ∧
    (weatherCodesLookup code = none →
      getWeatherDescription code = "코드 " ++ toString code) := by
  constructor
  · intro d h
    have hpair : ∃ p, WEATHER_CODES.find? (fun p => p.1 = code) = some p ∧ p.2 = d := by
      unfold weatherCodesLookup at h
      cases hf : WEATHER_CODES.find? (fun p => p.1 = code) with
      | none => rw [hf] at h; simp at h
      | some p => rw [hf] at h; simp at h; exact ⟨p, rfl, h⟩
    obtain ⟨p, hf, hpd⟩ := hpair
    have hmem : p ∈ WEATHER_CODES := List.mem_of_find?_eq_some hf
    have hne : d.isEmpty = false := by
      have hall : ∀ p ∈ WEATHER_CODES, p.2.isEmpty = false := by decide
      rw [← hpd]; exact hall p hmem
    simp [getWeatherDescription, h, jsOrString, hne]
  · intro h
    simp [getWeatherDescription, h, jsOrString]

/-- Witness for C4: code 0 is in the table and maps to its description; code
7 is absent and falls back to the generic label. -/
theorem getWeatherDescription_table_or_fallback_witness :
    getWeatherDescription 0 = "맑음" ∧
    getWeatherDescription 7 = "코드 " ++ toString (7 : Int) :=
  ⟨(getWeatherDescription_table_or_fallback 0).1 "맑음" (by decide),
   (getWeatherDescription_table_or_fallback 7).2 (by decide)⟩

/-- Claim C5: with no credential configured (no `config.hfToken`, no
`HF_TOKEN` fallback) the inference client is `null`, and `generate-image`
returns the credential-missing text envelope having performed zero outbound
inference calls. -/
theorem generateImage_no_credential (configHfToken envHfToken : Option String)
    (textToImage : String → String → Except String String) (prompt : String)
    (hc : configHfToken = none) (he : envHfToken = none) :
    hfClient configHfToken envHfToken = none ∧
    generateImageHandler (hfClient configHfToken envHfToken) textToImage prompt =
      (createTextResponse missingTokenMessage, 0) := by
  subst hc
  subst he
  exact ⟨rfl, rfl⟩

/-- Witness for C5: concrete absent credentials and an inference stub that
would fail if it were ever called. -/
theorem generateImage_no_credential_witness :
    hfClient none none = none ∧
    generateImageHandler (hfClient none none) (fun _ _ => Except.error "e") "cat" =
      (createTextResponse missingTokenMessage, 0) :=
  generateImage_no_credential none none (fun _ _ => Except.error "e") "cat" rfl rfl

/-- Claim C6: the `get-time` handler always returns a text envelope (it never
throws out to its caller), and when the timezone is invalid (the formatter
rejects it) the returned text contains the invalid timezone string. -/
theorem getTime_invalid_timezone (format : String → Option String) (timezone : String) :
    (∃ s, getTimeHandler format timezone = createTextResponse s) ∧
    (format timezone = none →
      getTimeHandler format timezone =
        createTextResponse ("오류: 유효하지 않은 타임존입니다. (" ++ timezone ++ ")") ∧
      ∃ p q, getTimeHandler format timezone = createTextResponse (p ++ timezone ++ q)) := by
  constructor
  · cases hf : format timezone with
    | some t => exact ⟨timezone ++ "의 현재 시간: " ++ t, by simp [getTimeHandler, hf]⟩
    | none =>
        exact ⟨"오류: 유효하지 않은 타임존입니다. (" ++ timezone ++ ")",
          by simp [getTimeHandler, hf]⟩
  · intro h
    refine ⟨by simp [getTimeHandler, h], "오류: 유효하지 않은 타임존입니다. (", ")", ?_⟩
    simp [getTimeHandler, h]

/-- Witness for C6: a formatter that rejects everything, applied to a
concrete timezone string. -/
theorem getTime_invalid_timezone_witness :
    (fun (_ : String) => (none : Option String)) "Nowhere/Zone" = none ∧
    getTimeHandler (fun _ => none) "Nowhere/Zone" =
      createTextResponse ("오류: 유효하지 않은 타임존입니다. (" ++ "Nowhere/Zone" ++ ")") :=
  ⟨rfl, ((getTime_invalid_timezone (fun _ => none) "Nowhere/Zone").2 rfl).1⟩

/-- Claim C7: for every name, the Korean greeting begins with "안녕하세요,"
and ends with "님!"; the English greeting contains the literal name and an
exclamation mark; and an omitted language validates to the English default. -/
theorem greet_language_phrasing (name : String) :
    (∃ rest, greetText name Language.ko = "안녕하세요," ++ rest) ∧
    (∃ pre, greetText name Language.ko = pre ++ "님!") ∧
    (∃ p q, greetText name Language.en = p ++ name ++ q) ∧
    (∃ p q, greetText name Language.en = p ++ "!" ++ q) ∧
    validateGreetLanguage none = Except.ok Language.en := by
  refine ⟨⟨" " ++ name ++ "님!", ?_⟩, ⟨"안녕하세요, " ++ name, rfl⟩,
    ⟨"Hey there, ", "! 👋 Nice to meet you!", rfl⟩,
    ⟨"Hey there, " ++ name, " 👋 Nice to meet you!", ?_⟩, rfl⟩
  · show ("안녕하세요, " ++ name) ++ "님!" = "안녕하세요," ++ ((" " ++ name) ++ "님!")
    rw [← String.append_assoc "안녕하세요," (" " ++ name) "님!",
      ← String.append_assoc "안녕하세요," " " name]
    rfl
  · show ("Hey there, " ++ name) ++ "! 👋 Nice to meet you!" =
      (("Hey there, " ++ name) ++ "!") ++ " 👋 Nice to meet you!"
    rw [String.append_assoc ("Hey there, " ++ name) "!" " 👋 Nice to meet you!"]
    rfl

/-- Claim C8: defaults are applied exactly on absence — an absent `language`
validates to `en` and an absent `forecastDays` to 7, while a present value
only validates when it satisfies the declared enum / integer-range
constraint; any other present value is rejected, never replaced by the
default. -/
theorem validation_defaults_only_on_absence :
    validateGreetLanguage none = Except.ok Language.en ∧
    validateForecastDays none = Except.ok 7 ∧
    (∀ v : JsonValue, exceptOk (validateGreetLanguage (some v)) = true →
      v = JsonValue.str "ko" ∨ v = JsonValue.str "en") ∧
    (∀ q : ℚ, exceptOk (validateForecastDays (some (JsonValue.num q))) = true →
      q.den = 1 ∧ 1 ≤ q ∧ q ≤ 16) ∧
    (∀ v : JsonValue, (∀ q, v ≠ JsonValue.num q) →
      exceptOk (validateForecastDays (some v)) = false) := by
  refine ⟨rfl, rfl, ?_, ?_, ?_⟩
  · intro v h
    cases v with
    | str s =>
        by_cases h1 : s = "ko"
        · exact Or.inl (by rw [h1])
        · by_cases h2 : s = "en"
          · exact Or.inr (by rw [h2])
          · exfalso
            simp [validateGreetLanguage, h1, h2, exceptOk] at h
    | num q => simp [validateGreetLanguage, exceptOk] at h
    | bool b => simp [validateGreetLanguage, exceptOk] at h
    | null => simp [validateGreetLanguage, exceptOk] at h
  · intro q h
    by_cases h1 : q.den = 1
    · by_cases h2 : q < 1
      · simp [validateForecastDays, h1, h2, exceptOk] at h
      · by_cases h3 : q > 16
        · simp [validateForecastDays, h1, h2, h3, exceptOk] at h
        · exact ⟨h1, not_lt.mp h2, not_lt.mp h3⟩
    · simp [validateForecastDays, h1, exceptOk] at h
  · intro v hv
    cases v with
    | str s => rfl
    | num q => exact absurd rfl (hv q)
    | bool b => rfl
    | null => rfl

/-- Witness for C8: the present value "ko" is accepted as itself, the present
integral 7 satisfies the range, and a present string for `forecastDays` is
rejected. -/
theorem validation_defaults_only_on_absence_witness :
    (JsonValue.str "ko" = JsonValue.str "ko" ∨ JsonValue.str "ko" = JsonValue.str "en") ∧
    ((7 : ℚ).den = 1 ∧ (1 : ℚ) ≤ 7 ∧ (7 : ℚ) ≤ 16) ∧
    exceptOk (validateForecastDays (some (JsonValue.str "7"))) = false :=
  ⟨validation_defaults_only_on_absence.2.2.1 (JsonValue.str "ko") (by decide),
   validation_defaults_only_on_absence.2.2.2.1 7 (by norm_num [validateForecastDays, exceptOk]),
   validation_defaults_only_on_absence.2.2.2.2 (JsonValue.str "7")
     (fun q h => JsonValue.noConfusion h)⟩

/-- Claim C9: the server-info resource's tool catalog lists exactly as many
entries as there are registered tools (six), and its `totalTools` field
equals that count; the catalog names match the registered names. -/
theorem serverInfo_catalog_in_sync :
    serverInfoToolCatalog.length = registeredToolNames.length ∧
    serverInfoToolCatalog.length = 6 ∧
    serverInfoTotalTools = serverInfoToolCatalog.length ∧
    serverInfoToolCatalog.map Prod.fst = registeredToolNames := by
  decide

/-- Claim C10: when the geocode lookup returns a non-empty result array whose
first element has no `display_name` field, the handler substitutes the input
address as the display name, and the response still carries the address line
together with the parsed latitude and longitude. -/
theorem geocode_missing_display_name (parseFloatStr : String → String)
    (r : GeocodeResult) (rest : List GeocodeResult) (address : String)
    (h : r.display_name = none) :
    geocodeHandler parseFloatStr (r :: rest) address =
      createTextResponse
        ("주소: " ++ address ++ "\n위도: " ++ parseFloatStr r.lat ++ "\n경도: " ++
          parseFloatStr r.lon ++ "\n좌표: (" ++ parseFloatStr r.lat ++ ", " ++
          parseFloatStr r.lon ++ ")") := by
  simp [geocodeHandler, jsOrString, h]

/-- Witness for C10: a concrete single-element result with `display_name`
absent and identity number re-stringification. -/
theorem geocode_missing_display_name_witness :
    ({ lat := "37.5", lon := "127.0", display_name := none } : GeocodeResult).display_name
        = none ∧
    geocodeHandler id [{ lat := "37.5", lon := "127.0", display_name := none }] "서울" =
      createTextResponse
        ("주소: " ++ "서울" ++ "\n위도: " ++ id "37.5" ++ "\n경도: " ++ id "127.0" ++
          "\n좌표: (" ++ id "37.5" ++ ", " ++ id "127.0" ++ ")") :=
  ⟨rfl, geocode_missing_display_name id
    { lat := "37.5", lon := "127.0", display_name := none } [] "서울" rfl⟩

end McpServer
